import Mathlib

/-!
# Verification of `netmiko/channel.py` (transport abstraction layer)

A shallow embedding of the channel layer: the shared pattern-read loop
(`Channel.read_channel_expect`), the SSH timing-read loop, the per-backend
`close`/`is_alive`/`read_buffer`/`read_channel`/`write_channel` methods, the
SSH `establish_connection` error translation, and the `log_writes` decorator.

Python text is modelled as `String` where byte-level details are irrelevant,
and as `List Nat` (unicode code points / bytes) for the encode/decode
pipeline.  Python `None`-or-value is `Option`; Python exceptions are an
explicit `PyExc` channel.
-/

set_option autoImplicit false
set_option maxRecDepth 8192

namespace Netmiko

/-- The Python exceptions that appear in `channel.py`. -/
inductive PyExc where
  /-- `AttributeError` (attribute access on an object that lacks it). -/
  | attributeError
  /-- `EOFError` (stream closed). -/
  | eofError
  /-- `UnicodeDecodeError` (raised while logging a write). -/
  | unicodeDecodeError
  /-- any other exception (e.g. a transport race during close). -/
  | exception
  deriving DecidableEq, Repr

/-- Python's `needle in haystack` test on strings (substring containment). -/
def pySubstr (needle haystack : String) : Prop :=
  needle.data <:+: haystack.data

instance (n h : String) : Decidable (pySubstr n h) :=
  List.decidableInfix n.data h.data

/-- Python `str.isspace` on the ASCII whitespace stripped by `str.lstrip()`. -/
def pyIsSpace (c : Char) : Bool :=
  c = ' ' || c = '\t' || c = '\n' || c = '\r' || c = '\x0b' || c = '\x0c'

/-- Helper for `pyLstrip`: drop leading whitespace characters. -/
def pyLstripAux : List Char → List Char
  | [] => []
  | c :: rest => if pyIsSpace c then pyLstripAux rest else c :: rest

/-- Python `str.lstrip()` (no argument): remove leading whitespace. -/
def pyLstrip (s : String) : String :=
  ⟨pyLstripAux s.data⟩

/-- State of the small scanner that removes ANSI escape sequences. -/
inductive AnsiSt where
  /-- ordinary text -/
  | normal
  /-- just saw ESC -/
  | esc
  /-- inside a CSI sequence (`ESC [ … final`) -/
  | csi
  deriving DecidableEq, Repr

/-- Generic ANSI-stripping scanner, usable on `Char` and on raw code points:
drops `ESC [ parameters final-byte` sequences and keeps everything else. -/
def stripAnsiAux {α : Type} [DecidableEq α] (escCh lbrCh : α) (isFinal : α → Bool) :
    AnsiSt → List α → List α
  | _, [] => []
  | .normal, c :: rest =>
    if c = escCh then stripAnsiAux escCh lbrCh isFinal .esc rest
    else c :: stripAnsiAux escCh lbrCh isFinal .normal rest
  | .esc, c :: rest =>
    if c = lbrCh then stripAnsiAux escCh lbrCh isFinal .csi rest
    else escCh :: c :: stripAnsiAux escCh lbrCh isFinal .normal rest
  | .csi, c :: rest =>
    if isFinal c then stripAnsiAux escCh lbrCh isFinal .normal rest
    else stripAnsiAux escCh lbrCh isFinal .csi rest

/-- Modelled from the spec: `strip_ansi_escape_codes` lives in
`netmiko.utilities`, which is not under `src/`; the spec says read results
have "terminal control sequences" stripped.  Modelled as removal of ANSI CSI
sequences (`ESC [ … final-byte`) from the text, on raw code points. -/
def stripAnsiCp (bs : List Nat) : List Nat :=
  stripAnsiAux 27 91 (fun c => 64 ≤ c && c ≤ 126) .normal bs

/-- Modelled from the spec: `strip_ansi_escape_codes` (`netmiko.utilities`,
not under `src/`) on Python strings; same scanner as `stripAnsiCp`. -/
def strip_ansi_escape_codes (s : String) : String :=
  ⟨stripAnsiAux '\x1b' '[' (fun c => 64 ≤ c.toNat && c.toNat ≤ 126) .normal s.data⟩

/-- Is `b` a UTF-8 continuation byte (`0x80 ≤ b ≤ 0xBF`)? -/
def utf8Cont (b : Nat) : Bool :=
  0x80 ≤ b && b ≤ 0xBF

/-- Valid second byte of a three-byte UTF-8 sequence with lead byte `b`. -/
def utf8Snd3 (b b2 : Nat) : Bool :=
  if b = 0xE0 then 0xA0 ≤ b2 && b2 ≤ 0xBF
  else if b = 0xED then 0x80 ≤ b2 && b2 ≤ 0x9F
  else utf8Cont b2

/-- Valid second byte of a four-byte UTF-8 sequence with lead byte `b`. -/
def utf8Snd4 (b b2 : Nat) : Bool :=
  if b = 0xF0 then 0x90 ≤ b2 && b2 ≤ 0xBF
  else if b = 0xF4 then 0x80 ≤ b2 && b2 ≤ 0x8F
  else utf8Cont b2

/-- One step of UTF-8 decoding with the `"ignore"` error handler: given the
lead byte `b` and the remaining bytes `rest`, return the decoded code point
(or `none` when the sequence is invalid and skipped) together with how many
bytes of `rest` belong to this step. -/
def utf8Step (b : Nat) (rest : List Nat) : Option Nat × Nat :=
  if b < 0x80 then (some b, 0)
  else if 0xC2 ≤ b && b ≤ 0xDF then
    match rest with
    | b2 :: _ =>
      if utf8Cont b2 then (some ((b - 0xC0) * 0x40 + (b2 - 0x80)), 1)
      else (none, 0)
    | [] => (none, 0)
  else if 0xE0 ≤ b && b ≤ 0xEF then
    match rest with
    | b2 :: b3 :: _ =>
      if utf8Snd3 b b2 then
        if utf8Cont b3 then
          (some ((b - 0xE0) * 0x1000 + (b2 - 0x80) * 0x40 + (b3 - 0x80)), 2)
        else (none, 1)
      else (none, 0)
    | [b2] => if utf8Snd3 b b2 then (none, 1) else (none, 0)
    | [] => (none, 0)
  else if 0xF0 ≤ b && b ≤ 0xF4 then
    match rest with
    | b2 :: b3 :: b4 :: _ =>
      if utf8Snd4 b b2 then
        if utf8Cont b3 then
          if utf8Cont b4 then
            (some ((b - 0xF0) * 0x40000 + (b2 - 0x80) * 0x1000 +
                (b3 - 0x80) * 0x40 + (b4 - 0x80)), 3)
          else (none, 2)
        else (none, 1)
      else (none, 0)
    | [b2, b3] =>
      if utf8Snd4 b b2 then (if utf8Cont b3 then (none, 2) else (none, 1))
      else (none, 0)
    | [b2] => if utf8Snd4 b b2 then (none, 1) else (none, 0)
    | [] => (none, 0)
  else (none, 0)

/-- Fuel-bounded driver of the UTF-8/ignore decoding: one unit of fuel per
lead byte; `bs.length` fuel therefore always suffices. -/
def decodeUtf8IgnoreAux : Nat → List Nat → List Nat
  | 0, _ => []
  | _, [] => []
  | fuel + 1, b :: rest =>
    match utf8Step b rest with
    | (some cp, k) => cp :: decodeUtf8IgnoreAux fuel (rest.drop k)
    | (none, k) => decodeUtf8IgnoreAux fuel (rest.drop k)

/-- Python `bytes.decode("utf-8", "ignore")`: decode UTF-8, skipping
undecodable bytes instead of raising.  Result is a list of code points. -/
def decodeUtf8Ignore (bs : List Nat) : List Nat :=
  decodeUtf8IgnoreAux bs.length bs

/-- The text encodings relevant to the channel's `encoding` setting. -/
inductive PyEncoding where
  /-- the default `"ascii"` -/
  | ascii
  /-- `"latin-1"` (every byte value is a code point) -/
  | latin1
  /-- `"utf-8"` -/
  | utf8
  deriving DecidableEq, Repr

/-- UTF-8 encoding of one code point. -/
def encodeUtf8Char (c : Nat) : List Nat :=
  if c < 0x80 then [c]
  else if c < 0x800 then [0xC0 + c / 0x40, 0x80 + c % 0x40]
  else if c < 0x10000 then
    [0xE0 + c / 0x1000, 0x80 + (c / 0x40) % 0x40, 0x80 + c % 0x40]
  else
    [0xF0 + c / 0x40000, 0x80 + (c / 0x1000) % 0x40, 0x80 + (c / 0x40) % 0x40,
      0x80 + c % 0x40]

/-- UTF-8 encoding of a list of code points. -/
def encodeUtf8 (text : List Nat) : List Nat :=
  text.foldr (fun c acc => encodeUtf8Char c ++ acc) []

/-- Modelled from the spec: `write_bytes` lives in `netmiko.utilities`, which
is not under `src/`; the spec says `write_channel` "encodes and writes text
verbatim" with the channel's configured codec, tolerating unencodable code
points by ignoring them.  Text is a list of unicode code points, the result a
list of bytes. -/
def write_bytes (text : List Nat) (encoding : PyEncoding) : List Nat :=
  match encoding with
  | .ascii => text.filter (· < 0x80)
  | .latin1 => text.filter (· < 0x100)
  | .utf8 => encodeUtf8 text

/-- Decoding with a configured encoding, errors ignored: this definition
follows the words of claim C8 ("decoded with the channel's configured
encoding, with undecodable bytes tolerated by substitution/ignoring") and is
compared against what the code actually does. -/
def decodeWithEncodingIgnore (encoding : PyEncoding) (bs : List Nat) : List Nat :=
  match encoding with
  | .ascii => bs.filter (· < 0x80)
  | .latin1 => bs
  | .utf8 => decodeUtf8Ignore bs

namespace Channel

/-! ## `Channel.read_channel_expect` (channel.py lines 118-146)

The loop interacts with the environment through `self.read_buffer()` (one
chunk per iteration) and `time.time()` (one reading per deadline check).  A
run of the environment is a list of `Poll` records consumed in order; the
regex engine `re.search` is an oracle passed in as a boolean function of
`(pattern, accumulated text, re_flags)`. -/

/-- One loop iteration's environment: the chunk `read_buffer()` returns and
the `time.time()` value observed at that iteration's deadline check. -/
structure Poll where
  /-- value returned by `self.read_buffer()` -/
  chunk : String
  /-- value of `time.time()` at this iteration's deadline comparison -/
  now : Nat
  deriving DecidableEq, Repr

/-- Outcome of `read_channel_expect`. -/
inductive ExpectResult where
  /-- normal return of the (ANSI-stripped) accumulated output -/
  | found (output : String)
  /-- `NetmikoTimeoutException` with the given message -/
  | timedOut (msg : String)
  /-- the poll script ran out (an artifact of the finite model, not a
  behavior of the code: the real loop would keep polling) -/
  | exhausted
  deriving DecidableEq, Repr

/-- The message of the `NetmikoTimeoutException` raised on pattern timeout
(channel.py lines 133-138). -/
def timeout_msg (pattern output : String) : String :=
  "\n\nTimed-out reading channel, pattern not found in output: " ++ pattern ++
    "\nData retrieved before timeout:\n\n" ++ output ++ "\n\n"

/-- `Channel.read_channel_expect(pattern, timeout, re_flags)`: per iteration,
append `read_buffer()` to the accumulated output; if `re.search` matches,
strip ANSI sequences and return; otherwise if `time.time()` is past the
deadline, raise `NetmikoTimeoutException` carrying the pattern and the
stripped output; otherwise sleep and loop.  `search` is the `re.search`
oracle; `read_timeout` is the precomputed `time.time() + timeout` deadline;
`output` is the accumulator (initially `""`). -/
def read_channel_expect (search : String → String → Nat → Bool)
    (pattern : String) (re_flags : Nat) (read_timeout : Nat)
    (output : String) : List Poll → ExpectResult
  | [] => .exhausted
  | p :: rest =>
    let output := output ++ p.chunk
    if search pattern output re_flags then
      .found (strip_ansi_escape_codes output)
    else if p.now > read_timeout then
      .timedOut (timeout_msg pattern (strip_ansi_escape_codes output))
    else
      read_channel_expect search pattern re_flags read_timeout output rest

/-- The output accumulated after starting from `output` and consuming every
chunk of `ps`. -/
def accum (output : String) (ps : List Poll) : String :=
  ps.foldl (fun o p => o ++ p.chunk) output

/-- `cleanPrefix search pattern re_flags read_timeout output ps` holds when
the loop, started with accumulator `output`, runs through all of `ps` without
matching and without hitting the deadline (so it keeps polling). -/
def cleanPrefix (search : String → String → Nat → Bool)
    (pattern : String) (re_flags : Nat) (read_timeout : Nat)
    (output : String) : List Poll → Bool
  | [] => true
  | p :: rest =>
    !search pattern (output ++ p.chunk) re_flags &&
      decide (p.now ≤ read_timeout) &&
      cleanPrefix search pattern re_flags read_timeout (output ++ p.chunk) rest

/-- A concrete `re.search` oracle used by the witnesses: plain substring
search (every string pattern without metacharacters behaves like this). -/
def substrSearch (pattern output : String) (_re_flags : Nat) : Bool :=
  decide (pySubstr pattern output)

end Channel

namespace SSHChannel

/-! ## `SSHChannel` (channel.py lines 295-523) -/

/-- The paramiko interactive channel as seen by `read_buffer`/`read_channel`
on a loop-back transport: `buf` is the byte stream available to `recv`, and
`closed` records that the remote end closed the stream cleanly (in which
case `recv_ready()` is true and `recv` returns zero bytes once the buffer is
drained). -/
structure ParamikoChannel where
  /-- bytes available to `recv` -/
  buf : List Nat
  /-- remote end performed a clean close -/
  closed : Bool
  deriving DecidableEq, Repr

/-- `recv_ready()`: data is immediately available (or a clean close is
pending). -/
def recv_ready (c : ParamikoChannel) : Bool :=
  !c.buf.isEmpty || c.closed

/-- `SSHChannel.read_buffer` (lines 438-447): a single non-blocking poll.
If `self.remote_conn` is `None` or `recv_ready()` is false, return `""`
without reading; otherwise `recv` the available bytes (the loop-back model
returns the whole buffer; the code caps one `recv` at `MAX_BUFFER` bytes,
which only affects chunking), raising `EOFError` when `recv` returns zero
bytes, and decode them with `"utf-8", "ignore"`. -/
def read_buffer (conn : Option ParamikoChannel) :
    Except PyExc (List Nat) × Option ParamikoChannel :=
  match conn with
  | none => (.ok [], none)
  | some c =>
    if recv_ready c then
      let outbuf := c.buf
      if outbuf.length = 0 then
        (.error .eofError, some { c with buf := [] })
      else
        (.ok (decodeUtf8Ignore outbuf), some { c with buf := [] })
    else
      (.ok [], some c)

/-- The `while True` drain loop of `SSHChannel.read_channel` (lines 449-458):
keep calling `read_buffer`, appending, until a poll returns `""`.  `fuel`
bounds the number of iterations; two iterations always suffice against the
loop-back model because one `recv` drains the whole buffer. -/
def read_channel_loop :
    Nat → Option ParamikoChannel → List Nat →
      Except PyExc (List Nat × Option ParamikoChannel)
  | 0, conn, acc => .ok (acc, conn)
  | fuel + 1, conn, acc =>
    match read_buffer conn with
    | (.error e, _) => .error e
    | (.ok new_output, conn2) =>
      let acc := acc ++ new_output
      if new_output = [] then .ok (acc, conn2)
      else read_channel_loop fuel conn2 acc

/-- `SSHChannel.read_channel` (lines 449-458): drain all available data, then
strip ANSI escape sequences from the aggregate (the `@ansi_strip`
decorator).  An `EOFError` escaping from `read_buffer` propagates. -/
def read_channel (conn : Option ParamikoChannel) :
    Except PyExc (List Nat × Option ParamikoChannel) :=
  match read_channel_loop 2 conn [] with
  | .ok (out, c) => .ok (stripAnsiCp out, c)
  | .error e => .error e

/-- `SSHChannel.write_channel` (lines 433-436) against the loop-back
transport: when the handle is present, `sendall(write_bytes(out_data,
encoding))`; the loop-back echoes the sent bytes into the receive buffer.
When the handle is `None` the write is a no-op. -/
def write_channel (encoding : PyEncoding) (out_data : List Nat)
    (conn : Option ParamikoChannel) : Option ParamikoChannel :=
  match conn with
  | none => none
  | some c => some { c with buf := c.buf ++ write_bytes out_data encoding }

/-- Attribute state of an `SSHChannel` object: `remote_conn` and
`remote_conn_pre` may each be an absent attribute (outer `none`; accessing or
deleting it raises `AttributeError`).  `remote_conn` when present is either
Python `None` (inner `none`, as set by `__init__`) or an open interactive
channel; `remote_conn_pre` when present is the paramiko client built by
`establish_connection`. -/
structure State where
  /-- the `remote_conn` attribute; `__init__` sets it to Python `None` -/
  remote_conn : Option (Option Nat)
  /-- the `remote_conn_pre` attribute; only `establish_connection` sets it -/
  remote_conn_pre : Option Nat
  deriving DecidableEq, Repr

/-- The state right after `SSHChannel.__init__`: `remote_conn = None` and no
`remote_conn_pre` attribute at all. -/
def fresh : State :=
  { remote_conn := some none, remote_conn_pre := none }

/-- `SSHChannel.close` (lines 420-427): `try: self.remote_conn_pre.close()`
(an `AttributeError` if the attribute was never set; the underlying paramiko
close is modelled as non-raising) with `finally: del self.remote_conn; del
self.remote_conn_pre` — there is no `except` clause, so the pending
exception propagates after the `finally` block, and a failing `del` raises
its own `AttributeError` immediately.  Returns the resulting attribute state
and the exception that escapes, if any. -/
def close (s : State) : State × Option PyExc :=
  let pendingExc : Option PyExc :=
    match s.remote_conn_pre with
    | some _ => none
    | none => some .attributeError
  match s.remote_conn with
  | none => (s, some .attributeError)
  | some _ =>
    let s := { s with remote_conn := none }
    match s.remote_conn_pre with
    | none => (s, some .attributeError)
    | some _ => ({ s with remote_conn_pre := none }, pendingExc)

/-- The generic TCP-failure message of `establish_connection` (lines
364-373). -/
def tcp_failure_msg (device_type host : String) (port : Nat) : String :=
  "TCP connection to device failed.\n\nCommon causes of this problem are:\n" ++
    "1. Incorrect hostname or IP address.\n2. Wrong TCP port.\n" ++
    "3. Intermediate firewall blocking access.\n\nDevice settings: " ++
    device_type ++ " " ++ host ++ ":" ++ toString port ++ "\n\n"

/-- The dedicated DNS-failure message (lines 376-380). -/
def dns_failure_msg (host : String) (port : Nat) : String :=
  "DNS failure--the hostname you provided was not resolvable in DNS: " ++
    host ++ ":" ++ toString port

/-- The message for the paramiko "No existing session" race (lines
386-390). -/
def no_session_msg : String :=
  "Paramiko: \x27No existing session\x27 error: " ++
    "try increasing \x27conn_timeout\x27 to 10 seconds or larger."

/-- The authentication-failure message (lines 396-407); `auth_err` is the
string of the underlying paramiko exception, appended after a newline. -/
def auth_failure_msg (device_type host : String) (port : Nat)
    (auth_err : String) : String :=
  "Authentication to device failed.\n\nCommon causes of this problem are:\n" ++
    "1. Invalid username and password\n2. Incorrect SSH-key file\n" ++
    "3. Connecting to the wrong device\n\nDevice settings: " ++
    device_type ++ " " ++ host ++ ":" ++ toString port ++ "\n\n" ++
    "\n" ++ auth_err

/-- How the `self.remote_conn_pre.connect(**self.ssh_params)` call ends:
success, or one of the three exception classes the code catches, each
carrying `str(exception)`. -/
inductive ConnectOutcome where
  /-- connection established -/
  | ok
  /-- `socket.error` -/
  | socketError (msg : String)
  /-- `paramiko.ssh_exception.SSHException` -/
  | sshException (msg : String)
  /-- `paramiko.ssh_exception.AuthenticationException` -/
  | authException (msg : String)
  deriving DecidableEq, Repr

/-- What escapes from `establish_connection`. -/
inductive EstablishResult where
  /-- normal return -/
  | ok
  /-- `NetmikoTimeoutException` with the given message -/
  | netmikoTimeout (msg : String)
  /-- `NetmikoAuthenticationException` with the given message -/
  | netmikoAuth (msg : String)
  /-- the original transport exception re-raised unchanged (`raise`) -/
  | reraisedSSH (msg : String)
  /-- an exception escaping from the cleanup `self.close()` itself -/
  | pyError (e : PyExc)
  deriving DecidableEq, Repr

/-- `SSHChannel.establish_connection` (lines 354-418), from the point where
`self.remote_conn_pre` has been built, parameterized by the outcome of the
paramiko `connect` call.  On `socket.error`, close and raise
`NetmikoTimeoutException` with the generic TCP message — replaced by the
dedicated DNS message when `str(error)` contains `"Name or service not
known"` — after `lstrip`.  On `SSHException`, close, then translate to a
`NetmikoTimeoutException` recommending a larger `conn_timeout` if the text
contains `"No existing session"`, otherwise re-raise unchanged.  On
`AuthenticationException`, close and raise
`NetmikoAuthenticationException`.  On success, `invoke_shell` sets
`remote_conn`. -/
def establish_connection (device_type host : String) (port : Nat)
    (s : State) (outcome : ConnectOutcome) : State × EstablishResult :=
  let s := { s with remote_conn_pre := some 0 }
  match outcome with
  | .ok => ({ s with remote_conn := some (some 0) }, .ok)
  | .socketError m =>
    match close s with
    | (s2, some e) => (s2, .pyError e)
    | (s2, none) =>
      let msg := tcp_failure_msg device_type host port
      let msg :=
        if pySubstr "Name or service not known" m then dns_failure_msg host port
        else msg
      (s2, .netmikoTimeout (pyLstrip msg))
  | .sshException m =>
    match close s with
    | (s2, some e) => (s2, .pyError e)
    | (s2, none) =>
      if pySubstr "No existing session" m then (s2, .netmikoTimeout no_session_msg)
      else (s2, .reraisedSSH m)
  | .authException m =>
    match close s with
    | (s2, some e) => (s2, .pyError e)
    | (s2, none) => (s2, .netmikoAuth (auth_failure_msg device_type host port m))

/-- The transport behind an established SSH channel, as probed by
`is_alive`: `send_ok` is whether writing the null byte succeeds (a
`socket.error`/`EOFError` otherwise), `is_active` the paramiko transport's
own flag. -/
structure Transport where
  /-- the null-byte write goes through -/
  send_ok : Bool
  /-- `transport.is_active()` -/
  is_active : Bool
  deriving DecidableEq, Repr

/-- `SSHChannel.is_alive` (lines 506-523): `False` when `remote_conn` is
`None`; otherwise write a null byte and return `transport.is_active()`,
with `socket.error`/`EOFError` during the write caught and mapped to
`False`.  `some b` models returning the boolean `b` (the function always
returns a boolean). -/
def is_alive (conn : Option Transport) : Option Bool :=
  match conn with
  | none => some false
  | some t => if t.send_ok then some t.is_active else some false

/-- Outcome of `SSHChannel.read_channel_timing`. -/
inductive TimingResult where
  /-- the loop returned the accumulated channel data -/
  | done (data : String)
  /-- the read script ran out (an artifact of the finite model) -/
  | exhausted
  deriving DecidableEq, Repr

/-- `SSHChannel.read_channel_timing` (lines 468-504): each outer iteration
sleeps, then does a full-drain `read_channel()` (consuming the next entry of
`reads`).  Nonempty data is appended.  On an empty read, one extra "settle"
sleep and one more read: if that is also empty, return the accumulated data;
otherwise append it and resume.  After each append the wall clock (`times`,
one `time.time()` reading per deadline check) is compared against the
deadline: past it, the loop returns the accumulated data instead of
raising.  `read_timeout` is the precomputed deadline, `channel_data` the
accumulator (initially `""`). -/
def read_channel_timing (read_timeout : Nat) (channel_data : String) :
    List String → List Nat → TimingResult
  | [], _ => .exhausted
  | new_data :: rest, times =>
    if new_data ≠ "" then
      let channel_data := channel_data ++ new_data
      match times with
      | [] => .exhausted
      | t :: trest =>
        if t > read_timeout then .done channel_data
        else read_channel_timing read_timeout channel_data rest trest
    else
      match rest with
      | [] => .exhausted
      | new_data2 :: rest2 =>
        if new_data2 = "" then .done channel_data
        else
          let channel_data := channel_data ++ new_data2
          match times with
          | [] => .exhausted
          | t :: trest =>
            if t > read_timeout then .done channel_data
            else read_channel_timing read_timeout channel_data rest2 trest

end SSHChannel

namespace TelnetChannel

/-! ## `TelnetChannel` (channel.py lines 161-292) -/

/-- Attribute state of a `TelnetChannel`: `remote_conn` is set to Python
`None` by `__init__` and to a telnetlib handle by `establish_connection`. -/
structure State where
  /-- the `remote_conn` attribute value -/
  remote_conn : Option Nat
  deriving DecidableEq, Repr

/-- Any exception raised by the underlying `telnetlib` close is swallowed by
`except Exception: pass`. -/
def swallowAll (_e : Option PyExc) : Option PyExc :=
  none

/-- `TelnetChannel.close` (lines 222-230): `try:` close the handle if it is
not `None` (`close_raises` models a transport race making that underlying
close raise), `except Exception: pass`, `finally: self.remote_conn = None`.
Never raises; always nulls the handle. -/
def close (close_raises : Bool) (s : State) : State × Option PyExc :=
  let excFromClose : Option PyExc :=
    match s.remote_conn with
    | none => none
    | some _ => if close_raises then some .exception else none
  (({ remote_conn := none } : State), swallowAll excFromClose)

/-- The socket behind an established telnet connection, as probed by
`is_alive`: `socket_ok` is whether `get_socket()`/`sendall` access works
(an `AttributeError` on a torn-down handle otherwise). -/
structure TelnetSock where
  /-- the three `IAC + NOP` probe writes go through -/
  socket_ok : Bool
  deriving DecidableEq, Repr

/-- `TelnetChannel.is_alive` (lines 272-292): `False` when `remote_conn` is
`None`; otherwise send `IAC + NOP` three times on the raw socket and return
`True`, with `AttributeError` caught and mapped to `False`.  The probe never
reads a reply.  `some b` models returning the boolean `b`. -/
def is_alive (conn : Option TelnetSock) : Option Bool :=
  match conn with
  | none => some false
  | some sock => if sock.socket_ok then some true else some false

/-- `TelnetChannel.read_channel_timing` (lines 268-270): the body is only
`pass` (marked `# FIX: needs implemented`), so the call returns Python
`None` whatever the arguments; `none` models `None`, `some s` would model
returning the string `s`. -/
def read_channel_timing (_delay_factor : Nat) (_timeout : Nat) : Option String :=
  none

end TelnetChannel

namespace SerialChannel

/-! ## `SerialChannel` (channel.py lines 526-595) -/

/-- Attribute state of a `SerialChannel`: `remote_conn` is `None` until
`establish_connection` opens the serial line. -/
structure State where
  /-- the `remote_conn` attribute value -/
  remote_conn : Option Nat
  deriving DecidableEq, Repr

/-- `SerialChannel.close` (lines 552-558): `try:` close the handle if it is
not `None` (`close_raises` models the underlying serial close raising),
`finally: self.remote_conn = None` — there is no `except` clause, so an
exception from the underlying close propagates after the handle is nulled. -/
def close (close_raises : Bool) (s : State) : State × Option PyExc :=
  let excFromClose : Option PyExc :=
    match s.remote_conn with
    | none => none
    | some _ => if close_raises then some .exception else none
  (({ remote_conn := none } : State), excFromClose)

/-- `SerialChannel.is_alive` (lines 593-595): the body is only `pass`
(marked `# FIX: needs implemented`), so the call returns Python `None`;
`none` models `None`, `some b` would model returning the boolean `b`. -/
def is_alive (_conn : Option Nat) : Option Bool :=
  none

end SerialChannel

/-! ## The `log_writes` decorator (channel.py lines 53-73) -/

/-- The externally owned session log: two read-only flags plus the
append-only list of recorded texts. -/
structure SessionLog where
  /-- the sink's finalized flag -/
  fin : Bool
  /-- whether writes (not just reads) are recorded -/
  record_writes : Bool
  /-- texts appended so far -/
  entries : List String
  deriving DecidableEq, Repr

/-- The channel state touched by a decorated `write_channel` call. -/
structure ChannelLogState where
  /-- `self.session_log` (optional, shared) -/
  session_log : Option SessionLog
  /-- texts the wrapped `write_channel` has pushed to the transport -/
  sent : List String
  deriving DecidableEq, Repr

/-- The `try:` block of `log_writes` (lines 59-67): format the debug line
with `write_bytes(out_data, encoding)` — `decode_fails` models that
formatting raising `UnicodeDecodeError` — then, if a session log is set and
`self.session_log.fin or self.session_log.record_writes`, append `out_data`
to it. -/
def logWritesTry (decode_fails : Bool) (out_data : String)
    (s : ChannelLogState) : Except PyExc ChannelLogState :=
  if decode_fails then .error .unicodeDecodeError
  else
    match s.session_log with
    | none => .ok s
    | some sl =>
      if sl.fin || sl.record_writes then
        let sl2 := { sl with entries := sl.entries ++ [out_data] }
        .ok { s with session_log := some sl2 }
      else .ok s

/-- The `log_writes` decorator (lines 53-73): run the wrapped
`write_channel` first (the transport write completes), then the logging
`try:` block, with `except UnicodeDecodeError: pass` swallowing a decode
error so the call still returns normally. -/
def log_writes (decode_fails : Bool) (out_data : String)
    (s : ChannelLogState) : ChannelLogState × Option PyExc :=
  let s1 := { s with sent := s.sent ++ [out_data] }
  match logWritesTry decode_fails out_data s1 with
  | .ok s2 => (s2, none)
  | .error .unicodeDecodeError => (s1, none)
  | .error e => (s1, some e)

/-! ## Helper lemmas -/

/-- A string is a Python substring of any concatenation that contains it as a
contiguous segment. -/
theorem pySubstr_of_eq_append {needle haystack : String} (a c : List Char)
    (h : haystack.data = a ++ needle.data ++ c) : pySubstr needle haystack :=
  ⟨a, c, h.symm⟩

/-- `pyLstripAux` keeps a list whose head is not whitespace. -/
theorem pyLstripAux_cons_not_space {c : Char} (l : List Char)
    (hc : pyIsSpace c = false) : pyLstripAux (c :: l) = c :: l := by
  simp [pyLstripAux, hc]

/-- `pyLstrip` is the identity on a string whose first character is not
whitespace. -/
theorem pyLstrip_eq_self_of_head {s : String} {c : Char} {l : List Char}
    (h : s.data = c :: l) (hc : pyIsSpace c = false) : pyLstrip s = s := by
  show (⟨pyLstripAux s.data⟩ : String) = s
  rw [h, pyLstripAux_cons_not_space l hc, ← h]

/-- The TCP-failure message starts with `'T'`, so `lstrip` leaves it
unchanged. -/
theorem pyLstrip_tcp (dt host : String) (port : Nat) :
    pyLstrip (SSHChannel.tcp_failure_msg dt host port) =
      SSHChannel.tcp_failure_msg dt host port :=
  pyLstrip_eq_self_of_head rfl (by decide)

/-- The DNS-failure message starts with `'D'`, so `lstrip` leaves it
unchanged. -/
theorem pyLstrip_dns (host : String) (port : Nat) :
    pyLstrip (SSHChannel.dns_failure_msg host port) =
      SSHChannel.dns_failure_msg host port :=
  pyLstrip_eq_self_of_head rfl (by decide)

/-- The fuel-bounded decoder is the identity on ASCII byte sequences when
given enough fuel. -/
theorem decodeUtf8IgnoreAux_ascii :
    ∀ (fuel : Nat) (l : List Nat), (∀ b ∈ l, b < 128) → l.length ≤ fuel →
      decodeUtf8IgnoreAux fuel l = l
  | 0, l, _, hf => by
    have hl : l = [] := List.length_eq_zero.mp (Nat.le_zero.mp hf)
    subst hl
    rfl
  | fuel + 1, [], _, _ => rfl
  | fuel + 1, b :: rest, h, hf => by
    have hb : b < 128 := h b (.head _)
    rw [decodeUtf8IgnoreAux]
    simp only [utf8Step, if_pos hb, List.drop_zero]
    exact congrArg (b :: ·)
      (decodeUtf8IgnoreAux_ascii fuel rest (fun x hx => h x (.tail _ hx))
        (by simpa using hf))

/-- UTF-8 decoding with the ignore handler is the identity on ASCII byte
sequences. -/
theorem decodeUtf8Ignore_ascii (l : List Nat) (h : ∀ b ∈ l, b < 128) :
    decodeUtf8Ignore l = l :=
  decodeUtf8IgnoreAux_ascii l.length l h le_rfl

/-- The ANSI scanner in `normal` state is the identity when the escape
character never occurs. -/
theorem stripAnsiAux_no_esc {α : Type} [DecidableEq α]
    (escCh lbrCh : α) (isFinal : α → Bool) :
    ∀ l : List α, (∀ b ∈ l, b ≠ escCh) →
      stripAnsiAux escCh lbrCh isFinal .normal l = l
  | [], _ => rfl
  | c :: rest, h => by
    have hc : c ≠ escCh := h c (.head _)
    rw [stripAnsiAux, if_neg hc]
    exact congrArg (c :: ·)
      (stripAnsiAux_no_esc escCh lbrCh isFinal rest fun x hx => h x (.tail _ hx))

/-- `stripAnsiCp` is the identity on code points that never include ESC. -/
theorem stripAnsiCp_eq_self (l : List Nat) (h : ∀ b ∈ l, b ≠ 27) :
    stripAnsiCp l = l :=
  stripAnsiAux_no_esc 27 91 _ l h

/-- The pattern string appears verbatim in the pattern-timeout message. -/
theorem pySubstr_pattern_timeout_msg (pattern out : String) :
    pySubstr pattern (Channel.timeout_msg pattern out) :=
  pySubstr_of_eq_append
    "\n\nTimed-out reading channel, pattern not found in output: ".data
    (("\nData retrieved before timeout:\n\n" ++ out ++ "\n\n").data)
    (by simp [Channel.timeout_msg, String.data_append, List.append_assoc])

/-- The (stripped) accumulated output appears verbatim in the
pattern-timeout message. -/
theorem pySubstr_output_timeout_msg (pattern out : String) :
    pySubstr out (Channel.timeout_msg pattern out) :=
  pySubstr_of_eq_append
    (("\n\nTimed-out reading channel, pattern not found in output: " ++
      pattern ++ "\nData retrieved before timeout:\n\n").data)
    "\n\n".data
    (by simp [Channel.timeout_msg, String.data_append, List.append_assoc])

/-- The device type appears verbatim in the generic TCP-failure message. -/
theorem pySubstr_device_tcp_msg (dt host : String) (port : Nat) :
    pySubstr dt (SSHChannel.tcp_failure_msg dt host port) :=
  pySubstr_of_eq_append
    (("TCP connection to device failed.\n\nCommon causes of this problem are:\n" ++
      "1. Incorrect hostname or IP address.\n2. Wrong TCP port.\n" ++
      "3. Intermediate firewall blocking access.\n\nDevice settings: ").data)
    ((" " ++ host ++ ":" ++ toString port ++ "\n\n").data)
    (by simp [SSHChannel.tcp_failure_msg, String.data_append, List.append_assoc])

/-- `host:port` appears verbatim in the generic TCP-failure message. -/
theorem pySubstr_hostport_tcp_msg (dt host : String) (port : Nat) :
    pySubstr (host ++ ":" ++ toString port)
      (SSHChannel.tcp_failure_msg dt host port) :=
  pySubstr_of_eq_append
    (("TCP connection to device failed.\n\nCommon causes of this problem are:\n" ++
      "1. Incorrect hostname or IP address.\n2. Wrong TCP port.\n" ++
      "3. Intermediate firewall blocking access.\n\nDevice settings: " ++
      dt ++ " ").data)
    "\n\n".data
    (by simp [SSHChannel.tcp_failure_msg, String.data_append, List.append_assoc])

/-- `"DNS failure"` appears verbatim (as the very beginning) in the
dedicated DNS-failure message. -/
theorem pySubstr_dnslabel_dns_msg (host : String) (port : Nat) :
    pySubstr "DNS failure" (SSHChannel.dns_failure_msg host port) := by
  have hsplit :
      ("DNS failure--the hostname you provided was not resolvable in DNS: " :
        String).data =
        "DNS failure".data ++
          "--the hostname you provided was not resolvable in DNS: ".data := by
    decide
  exact pySubstr_of_eq_append []
    ("--the hostname you provided was not resolvable in DNS: ".data ++
      host.data ++ ":".data ++ (toString port).data)
    (by simp [SSHChannel.dns_failure_msg, String.data_append,
      List.append_assoc, hsplit])

/-- `host:port` appears verbatim in the dedicated DNS-failure message. -/
theorem pySubstr_hostport_dns_msg (host : String) (port : Nat) :
    pySubstr (host ++ ":" ++ toString port) (SSHChannel.dns_failure_msg host port) :=
  pySubstr_of_eq_append
    "DNS failure--the hostname you provided was not resolvable in DNS: ".data
    []
    (by simp [SSHChannel.dns_failure_msg, String.data_append, List.append_assoc])

namespace Channel

/-- Unfolding one iteration of the expect loop. -/
theorem read_channel_expect_cons (search : String → String → Nat → Bool)
    (pattern : String) (re_flags read_timeout : Nat) (output : String)
    (p : Poll) (rest : List Poll) :
    read_channel_expect search pattern re_flags read_timeout output (p :: rest) =
      (if search pattern (output ++ p.chunk) re_flags then
        .found (strip_ansi_escape_codes (output ++ p.chunk))
      else if p.now > read_timeout then
        .timedOut (timeout_msg pattern (strip_ansi_escape_codes (output ++ p.chunk)))
      else
        read_channel_expect search pattern re_flags read_timeout
          (output ++ p.chunk) rest) := rfl

/-- The expect loop runs straight through a clean prefix (no match, no
deadline hit), accumulating its chunks. -/
theorem read_channel_expect_append_clean (search : String → String → Nat → Bool)
    (pattern : String) (re_flags read_timeout : Nat) :
    ∀ (s₁ : List Poll) (output : String) (rest : List Poll),
      cleanPrefix search pattern re_flags read_timeout output s₁ = true →
      read_channel_expect search pattern re_flags read_timeout output (s₁ ++ rest) =
        read_channel_expect search pattern re_flags read_timeout
          (accum output s₁) rest
  | [], _, _, _ => rfl
  | p :: s₁, output, rest, h => by
    rw [cleanPrefix] at h
    simp only [Bool.and_eq_true, Bool.not_eq_true', decide_eq_true_eq] at h
    obtain ⟨⟨hs, ht⟩, hrec⟩ := h
    rw [List.cons_append, read_channel_expect_cons, if_neg (by simp [hs]),
      if_neg (by omega)]
    exact read_channel_expect_append_clean search pattern re_flags read_timeout
      s₁ (output ++ p.chunk) rest hrec

/-- `accum` distributes over cons. -/
theorem accum_cons (output : String) (p : Poll) (ps : List Poll) :
    accum output (p :: ps) = accum (output ++ p.chunk) ps := rfl

end Channel

namespace SSHChannel

/-- Draining the loop-back transport: `read_channel` on an open, not-closed
channel returns the whole buffer decoded with UTF-8 (errors ignored) and
ANSI-stripped, leaving the buffer empty. -/
theorem read_channel_drains (bs : List Nat) :
    read_channel (some ⟨bs, false⟩) =
      .ok (stripAnsiCp (decodeUtf8Ignore bs), some ⟨[], false⟩) := by
  by_cases hb : bs = []
  · subst hb
    simp [read_channel, read_channel_loop, read_buffer, recv_ready,
      decodeUtf8Ignore, stripAnsiCp, stripAnsiAux]
  · have hlen : bs.length ≠ 0 := fun h => hb (List.length_eq_zero.mp h)
    by_cases hd : decodeUtf8Ignore bs = []
    · simp [read_channel, read_channel_loop, read_buffer, recv_ready,
        List.isEmpty_eq_true, hb, hlen, hd]
    · simp [read_channel, read_channel_loop, read_buffer, recv_ready,
        List.isEmpty_eq_true, hb, hlen, hd]

end SSHChannel

/-! ## Claim theorems -/

/-- C1: for every pattern, deadline, flags and `re.search` oracle,
`read_channel_expect` returns on the first poll iteration whose accumulated
buffer matches the pattern: the preceding polls were clean (no match, no
deadline hit), the call returns at that iteration no matter what data the
backend could still supply (`s₂` is arbitrary and never read), and the
returned string is the accumulated text with ANSI escape sequences
stripped. -/
theorem expect_returns_on_first_match
    (search : String → String → Nat → Bool) (pattern : String)
    (re_flags read_timeout : Nat) (s₁ : List Channel.Poll) (p : Channel.Poll)
    (s₂ : List Channel.Poll)
    (hclean : Channel.cleanPrefix search pattern re_flags read_timeout "" s₁ = true)
    (hmatch : search pattern (Channel.accum "" s₁ ++ p.chunk) re_flags = true) :
    Channel.read_channel_expect search pattern re_flags read_timeout ""
        (s₁ ++ p :: s₂) =
      .found (strip_ansi_escape_codes (Channel.accum "" s₁ ++ p.chunk)) := by
  rw [Channel.read_channel_expect_append_clean search pattern re_flags
    read_timeout s₁ "" (p :: s₂) hclean, Channel.read_channel_expect_cons,
    if_pos hmatch]

/-- Witness for C1: the pattern `"login"` completes on the second poll and
the loop returns at once, never touching the third poll. -/
theorem expect_returns_on_first_match_witness :
    Channel.read_channel_expect Channel.substrSearch "login" 0 5 ""
        ([⟨"lo", 0⟩] ++ ⟨"gin: ", 1⟩ :: [⟨"junk", 2⟩]) =
      .found (strip_ansi_escape_codes
        (Channel.accum "" [⟨"lo", 0⟩] ++ "gin: ")) :=
  expect_returns_on_first_match Channel.substrSearch "login" 0 5
    [⟨"lo", 0⟩] ⟨"gin: ", 1⟩ [⟨"junk", 2⟩] (by decide) (by decide)

/-- C2: if a poll observes `time.time()` past the deadline while the
accumulated buffer still does not match, `read_channel_expect` raises the
pattern-timeout error (`NetmikoTimeoutException`), and the error message
contains both the original pattern string and the ANSI-stripped text
accumulated up to that point. -/
theorem expect_timeout_error_carries_pattern_and_output
    (search : String → String → Nat → Bool) (pattern : String)
    (re_flags read_timeout : Nat) (s₁ : List Channel.Poll) (p : Channel.Poll)
    (s₂ : List Channel.Poll)
    (hclean : Channel.cleanPrefix search pattern re_flags read_timeout "" s₁ = true)
    (hnomatch : search pattern (Channel.accum "" s₁ ++ p.chunk) re_flags = false)
    (htime : p.now > read_timeout) :
    Channel.read_channel_expect search pattern re_flags read_timeout ""
        (s₁ ++ p :: s₂) =
      .timedOut (Channel.timeout_msg pattern
        (strip_ansi_escape_codes (Channel.accum "" s₁ ++ p.chunk))) ∧
    pySubstr pattern (Channel.timeout_msg pattern
      (strip_ansi_escape_codes (Channel.accum "" s₁ ++ p.chunk))) ∧
    pySubstr (strip_ansi_escape_codes (Channel.accum "" s₁ ++ p.chunk))
      (Channel.timeout_msg pattern
        (strip_ansi_escape_codes (Channel.accum "" s₁ ++ p.chunk))) := by
  refine ⟨?_, pySubstr_pattern_timeout_msg _ _, pySubstr_output_timeout_msg _ _⟩
  rw [Channel.read_channel_expect_append_clean search pattern re_flags
    read_timeout s₁ "" (p :: s₂) hclean, Channel.read_channel_expect_cons,
    if_neg (by simp [hnomatch]), if_pos htime]

/-- Witness for C2: with pattern `"zz"`, the deadline (10) is exceeded on
the second poll (time 11) before any match, and the raised message carries
the pattern and the accumulated output `"abc"`. -/
theorem expect_timeout_error_carries_pattern_and_output_witness :
    Channel.read_channel_expect Channel.substrSearch "zz" 0 10 ""
        ([⟨"ab", 0⟩] ++ ⟨"c", 11⟩ :: []) =
      .timedOut (Channel.timeout_msg "zz"
        (strip_ansi_escape_codes (Channel.accum "" [⟨"ab", 0⟩] ++ "c"))) ∧
    pySubstr "zz" (Channel.timeout_msg "zz"
      (strip_ansi_escape_codes (Channel.accum "" [⟨"ab", 0⟩] ++ "c"))) ∧
    pySubstr (strip_ansi_escape_codes (Channel.accum "" [⟨"ab", 0⟩] ++ "c"))
      (Channel.timeout_msg "zz"
        (strip_ansi_escape_codes (Channel.accum "" [⟨"ab", 0⟩] ++ "c"))) :=
  expect_timeout_error_carries_pattern_and_output Channel.substrSearch "zz" 0 10
    [⟨"ab", 0⟩] ⟨"c", 11⟩ [] (by decide) (by decide) (by decide)

/-- C9: the pattern test takes precedence over the deadline test.  Part 1: a
poll whose chunk completes the match returns normally even when that
iteration's `time.time()` reading is already past the deadline.  Part 2:
whenever the loop raises the pattern-timeout error, the accumulated buffer at
the raising iteration did not match the pattern. -/
theorem expect_match_precedes_deadline :
    (∀ (search : String → String → Nat → Bool) (pattern : String)
      (re_flags read_timeout : Nat) (s₁ : List Channel.Poll) (p : Channel.Poll)
      (s₂ : List Channel.Poll),
      Channel.cleanPrefix search pattern re_flags read_timeout "" s₁ = true →
      search pattern (Channel.accum "" s₁ ++ p.chunk) re_flags = true →
      p.now > read_timeout →
      Channel.read_channel_expect search pattern re_flags read_timeout ""
          (s₁ ++ p :: s₂) =
        .found (strip_ansi_escape_codes (Channel.accum "" s₁ ++ p.chunk))) ∧
    (∀ (search : String → String → Nat → Bool) (pattern : String)
      (re_flags read_timeout : Nat) (output : String) (polls : List Channel.Poll)
      (msg : String),
      Channel.read_channel_expect search pattern re_flags read_timeout output
          polls = .timedOut msg →
      ∃ b, search pattern b re_flags = false ∧
        msg = Channel.timeout_msg pattern (strip_ansi_escape_codes b)) := by
  constructor
  · intro search pattern re_flags read_timeout s₁ p s₂ hclean hmatch _htime
    rw [Channel.read_channel_expect_append_clean search pattern re_flags
      read_timeout s₁ "" (p :: s₂) hclean, Channel.read_channel_expect_cons,
      if_pos hmatch]
  · intro search pattern re_flags read_timeout output polls
    induction polls generalizing output with
    | nil =>
      intro msg h
      rw [Channel.read_channel_expect] at h
      cases h
    | cons p rest ih =>
      intro msg h
      rw [Channel.read_channel_expect_cons] at h
      by_cases hs : search pattern (output ++ p.chunk) re_flags = true
      · rw [if_pos hs] at h
        cases h
      · rw [if_neg hs] at h
        by_cases ht : p.now > read_timeout
        · rw [if_pos ht] at h
          refine ⟨output ++ p.chunk, Bool.eq_false_iff.mpr hs, ?_⟩
          cases h
          rfl
        · rw [if_neg ht] at h
          exact ih (output ++ p.chunk) msg h

/-- Witness for C9: part 1 at a poll that matches at time 99 against
deadline 5 and still returns normally; part 2 applied to a concrete
timed-out run, exhibiting the non-matching buffer. -/
theorem expect_match_precedes_deadline_witness :
    (Channel.read_channel_expect Channel.substrSearch "ok" 0 5 ""
        ([] ++ (⟨"ok", 99⟩ : Channel.Poll) :: []) =
      .found (strip_ansi_escape_codes (Channel.accum "" [] ++ "ok"))) ∧
    (∃ b, Channel.substrSearch "zz" b 0 = false ∧
      Channel.timeout_msg "zz" (strip_ansi_escape_codes "a") =
        Channel.timeout_msg "zz" (strip_ansi_escape_codes b)) :=
  ⟨expect_match_precedes_deadline.1 Channel.substrSearch "ok" 0 5 []
      ⟨"ok", 99⟩ [] (by decide) (by decide) (by decide),
    expect_match_precedes_deadline.2 Channel.substrSearch "zz" 0 5 ""
      [⟨"a", 99⟩] (Channel.timeout_msg "zz" (strip_ansi_escape_codes "a"))
      (by decide)⟩

/-- C3: the claim fails on the code.  `TelnetChannel.read_channel_timing`
is unimplemented — its body is `pass` (marked `# FIX: needs implemented`),
so it returns Python `None` for every argument instead of running the
quiescence loop.  The SSH implementation does follow the algorithm, shown
here on three runs: plain quiescence returns the accumulated data; a
mid-burst pause is bridged by the settle read and reading resumes; and
passing the overall deadline terminates the loop, returning partial data
instead of raising. -/
theorem telnet_timing_read_unimplemented :
    TelnetChannel.read_channel_timing 1 10 = none ∧
    SSHChannel.read_channel_timing 100 "" ["ab", "cd", "", ""] [5, 6] =
      .done "abcd" ∧
    SSHChannel.read_channel_timing 100 "" ["ab", "", "cd", "", ""] [5, 6] =
      .done "abcd" ∧
    SSHChannel.read_channel_timing 3 "" ["ab", "cd", "ef", "", ""] [5, 6] =
      .done "ab" :=
  ⟨rfl, rfl, rfl, rfl⟩

/-- C4: the claim fails on the code.  `SSHChannel.close` raises
`AttributeError` on a never-opened channel (its `try` block reads
`self.remote_conn_pre`, which only `establish_connection` sets, and there is
no `except` clause) and again on the second of two calls (the first call's
`finally` deleted both attributes).  The telnet backend's close is clean in
every state — even when the underlying close raises — and serial's close is
clean except that, lacking an `except` clause, it propagates an underlying
close error after nulling the handle. -/
theorem ssh_close_raises_attribute_error :
    (SSHChannel.close SSHChannel.fresh).2 = some .attributeError ∧
    SSHChannel.close { remote_conn := some (some 1), remote_conn_pre := some 0 } =
      ({ remote_conn := none, remote_conn_pre := none }, none) ∧
    (SSHChannel.close
        (SSHChannel.close
          { remote_conn := some (some 1), remote_conn_pre := some 0 }).1).2 =
      some .attributeError ∧
    TelnetChannel.close true { remote_conn := none } =
      ({ remote_conn := none }, none) ∧
    TelnetChannel.close true { remote_conn := some 1 } =
      ({ remote_conn := none }, none) ∧
    SerialChannel.close false { remote_conn := none } =
      ({ remote_conn := none }, none) ∧
    SerialChannel.close true { remote_conn := some 1 } =
      ({ remote_conn := none }, some .exception) :=
  ⟨rfl, rfl, rfl, rfl, rfl, rfl, rfl⟩

/-- C5: `SSHChannel.read_buffer` is a single poll that keeps "nothing
available yet" and "stream closed" distinguishable: with no data pending
(`recv_ready()` false, or no handle at all) it returns the empty string,
and a clean end-of-stream (`recv_ready()` true with a zero-byte `recv`)
raises `EOFError` instead of returning empty text. -/
theorem read_buffer_empty_vs_stream_closed (c : SSHChannel.ParamikoChannel) :
    (c.buf = [] → c.closed = false →
      SSHChannel.read_buffer (some c) = (.ok [], some c)) ∧
    (c.buf = [] → c.closed = true →
      SSHChannel.read_buffer (some c) =
        (.error .eofError, some { c with buf := [] })) ∧
    SSHChannel.read_buffer none = (.ok [], none) := by
  refine ⟨?_, ?_, rfl⟩
  · intro h1 h2
    simp [SSHChannel.read_buffer, SSHChannel.recv_ready, h1, h2]
  · intro h1 h2
    simp [SSHChannel.read_buffer, SSHChannel.recv_ready, h1, h2]

/-- Witness for C5: an idle open channel returns `""`; a cleanly closed one
raises `EOFError`. -/
theorem read_buffer_empty_vs_stream_closed_witness :
    SSHChannel.read_buffer (some ⟨[], false⟩) = (.ok [], some ⟨[], false⟩) ∧
    SSHChannel.read_buffer (some ⟨[], true⟩) =
      (.error .eofError, some ⟨[], true⟩) :=
  ⟨(read_buffer_empty_vs_stream_closed ⟨[], false⟩).1 rfl rfl,
    (read_buffer_empty_vs_stream_closed ⟨[], true⟩).2.1 rfl rfl⟩

/-- C6: `SSHChannel.establish_connection` translates connect failures into
the domain taxonomy.  A socket error becomes a `NetmikoTimeoutException`
whose message names the device type and `host:port` — unless the underlying
text indicates unresolved DNS (`"Name or service not known"`), in which case
the dedicated DNS message (naming `host:port`) is produced instead.  A
transport `SSHException` containing `"No existing session"` becomes a
`NetmikoTimeoutException` recommending a larger `conn_timeout`; any other
`SSHException` is re-raised unchanged.  In every one of these cases the
resulting attribute state is `⟨none, none⟩`: `close()` ran and deleted the
partially opened resources before the error propagated. -/
theorem establish_connection_error_translation (dt host : String) (port : Nat)
    (m : String) :
    (¬ pySubstr "Name or service not known" m →
      SSHChannel.establish_connection dt host port SSHChannel.fresh
          (.socketError m) =
        (⟨none, none⟩, .netmikoTimeout (SSHChannel.tcp_failure_msg dt host port)) ∧
      pySubstr dt (SSHChannel.tcp_failure_msg dt host port) ∧
      pySubstr (host ++ ":" ++ toString port)
        (SSHChannel.tcp_failure_msg dt host port)) ∧
    (pySubstr "Name or service not known" m →
      SSHChannel.establish_connection dt host port SSHChannel.fresh
          (.socketError m) =
        (⟨none, none⟩, .netmikoTimeout (SSHChannel.dns_failure_msg host port)) ∧
      pySubstr "DNS failure" (SSHChannel.dns_failure_msg host port) ∧
      pySubstr (host ++ ":" ++ toString port)
        (SSHChannel.dns_failure_msg host port)) ∧
    (pySubstr "No existing session" m →
      SSHChannel.establish_connection dt host port SSHChannel.fresh
          (.sshException m) =
        (⟨none, none⟩, .netmikoTimeout SSHChannel.no_session_msg) ∧
      pySubstr "try increasing" SSHChannel.no_session_msg) ∧
    (¬ pySubstr "No existing session" m →
      SSHChannel.establish_connection dt host port SSHChannel.fresh
          (.sshException m) =
        (⟨none, none⟩, .reraisedSSH m)) := by
  refine ⟨fun h => ⟨?_, pySubstr_device_tcp_msg dt host port,
      pySubstr_hostport_tcp_msg dt host port⟩,
    fun h => ⟨?_, pySubstr_dnslabel_dns_msg host port,
      pySubstr_hostport_dns_msg host port⟩,
    fun h => ⟨?_, by decide⟩, fun h => ?_⟩
  · simp [SSHChannel.establish_connection, SSHChannel.fresh, SSHChannel.close,
      h, pyLstrip_tcp]
  · simp [SSHChannel.establish_connection, SSHChannel.fresh, SSHChannel.close,
      h, pyLstrip_dns]
  · simp [SSHChannel.establish_connection, SSHChannel.fresh, SSHChannel.close, h]
  · simp [SSHChannel.establish_connection, SSHChannel.fresh, SSHChannel.close, h]

/-- Witness for C6: all four branches at concrete inputs — a plain timeout,
an unresolved-DNS error text, the "No existing session" race and an unknown
transport error. -/
theorem establish_connection_error_translation_witness :
    (SSHChannel.establish_connection "cisco_ios" "host1" 22 SSHChannel.fresh
        (.socketError "timed out") =
      (⟨none, none⟩,
        .netmikoTimeout (SSHChannel.tcp_failure_msg "cisco_ios" "host1" 22)) ∧
      pySubstr "cisco_ios" (SSHChannel.tcp_failure_msg "cisco_ios" "host1" 22) ∧
      pySubstr ("host1" ++ ":" ++ toString 22)
        (SSHChannel.tcp_failure_msg "cisco_ios" "host1" 22)) ∧
    (SSHChannel.establish_connection "cisco_ios" "host1" 22 SSHChannel.fresh
        (.socketError "Name or service not known") =
      (⟨none, none⟩, .netmikoTimeout (SSHChannel.dns_failure_msg "host1" 22)) ∧
      pySubstr "DNS failure" (SSHChannel.dns_failure_msg "host1" 22) ∧
      pySubstr ("host1" ++ ":" ++ toString 22)
        (SSHChannel.dns_failure_msg "host1" 22)) ∧
    (SSHChannel.establish_connection "cisco_ios" "host1" 22 SSHChannel.fresh
        (.sshException "No existing session") =
      (⟨none, none⟩, .netmikoTimeout SSHChannel.no_session_msg) ∧
      pySubstr "try increasing" SSHChannel.no_session_msg) ∧
    SSHChannel.establish_connection "cisco_ios" "host1" 22 SSHChannel.fresh
        (.sshException "banner error") =
      (⟨none, none⟩, .reraisedSSH "banner error") :=
  ⟨(establish_connection_error_translation "cisco_ios" "host1" 22
      "timed out").1 (by decide),
    (establish_connection_error_translation "cisco_ios" "host1" 22
      "Name or service not known").2.1 (by decide),
    (establish_connection_error_translation "cisco_ios" "host1" 22
      "No existing session").2.2.1 (by decide),
    (establish_connection_error_translation "cisco_ios" "host1" 22
      "banner error").2.2.2 (by decide)⟩

/-- C7 counterexample: the claim fails for the serial backend —
`SerialChannel.is_alive` has a `pass` body, so on a never-established
channel it returns Python `None`, not the boolean `False` the claim asserts
for every backend. -/
theorem serial_is_alive_returns_none :
    SerialChannel.is_alive none ≠ some false := by
  decide

/-- C7 amended: on a channel that was constructed but never established,
the remote-terminal and secure-shell backends return `False` from
`is_alive()` without raising; the serial backend's `is_alive` is
unimplemented and returns Python `None` (no boolean at all), also without
raising. -/
theorem is_alive_false_before_establish :
    TelnetChannel.is_alive none = some false ∧
    SSHChannel.is_alive none = some false ∧
    SerialChannel.is_alive none = none :=
  ⟨rfl, rfl, rfl⟩

/-- C8 counterexample: the claim fails on the code.  With configured
encoding latin-1 and text `"é"` (code point 0xE9), the loop-back round trip
returns the empty string: the written byte `0xE9` is not valid UTF-8 and
`read_buffer` decodes with hardcoded `"utf-8", "ignore"` instead of the
configured encoding, which per the claim would give back `"é"`. -/
theorem roundtrip_latin1_counterexample :
    SSHChannel.read_channel
        (SSHChannel.write_channel .latin1 [0xE9] (some ⟨[], false⟩)) =
      .ok ([], some ⟨[], false⟩) ∧
    stripAnsiCp (decodeWithEncodingIgnore .latin1 (write_bytes [0xE9] .latin1)) =
      [0xE9] ∧
    SSHChannel.read_channel
        (SSHChannel.write_channel .latin1 [0xE9] (some ⟨[], false⟩)) ≠
      .ok (stripAnsiCp
          (decodeWithEncodingIgnore .latin1 (write_bytes [0xE9] .latin1)),
        some ⟨[], false⟩) := by
  refine ⟨rfl, rfl, fun h => ?_⟩
  rw [show SSHChannel.read_channel
      (SSHChannel.write_channel .latin1 [0xE9] (some ⟨[], false⟩)) =
    Except.ok (([] : List Nat),
      some (⟨[], false⟩ : SSHChannel.ParamikoChannel)) from rfl] at h
  rw [show stripAnsiCp
      (decodeWithEncodingIgnore .latin1 (write_bytes [0xE9] .latin1)) =
    [0xE9] from rfl] at h
  exact absurd h (by simp)

/-- C8 amended: `write_channel(text)` followed by `read_channel()` on the
loop-back transport returns the written bytes decoded with UTF-8
(undecodable bytes ignored) and ANSI-stripped — the configured encoding is
used only on the write side — and in particular ASCII text (no code point ≥
128 and no ESC) round-trips exactly under the default `"ascii"` encoding. -/
theorem roundtrip_returns_utf8_decoded_write :
    (∀ (encoding : PyEncoding) (text : List Nat),
      SSHChannel.read_channel
          (SSHChannel.write_channel encoding text (some ⟨[], false⟩)) =
        .ok (stripAnsiCp (decodeUtf8Ignore (write_bytes text encoding)),
          some ⟨[], false⟩)) ∧
    (∀ text : List Nat, (∀ b ∈ text, b < 128 ∧ b ≠ 27) →
      SSHChannel.read_channel
          (SSHChannel.write_channel .ascii text (some ⟨[], false⟩)) =
        .ok (text, some ⟨[], false⟩)) := by
  constructor
  · intro encoding text
    have : SSHChannel.write_channel encoding text (some ⟨[], false⟩) =
        some ⟨write_bytes text encoding, false⟩ := by
      simp [SSHChannel.write_channel]
    rw [this, SSHChannel.read_channel_drains]
  · intro text h
    have hw : write_bytes text .ascii = text :=
      List.filter_eq_self.mpr fun b hb => by
        simpa using (h b hb).1
    have : SSHChannel.write_channel .ascii text (some ⟨[], false⟩) =
        some ⟨text, false⟩ := by
      simp [SSHChannel.write_channel, hw]
    rw [this, SSHChannel.read_channel_drains,
      decodeUtf8Ignore_ascii text fun b hb => (h b hb).1,
      stripAnsiCp_eq_self text fun b hb => (h b hb).2]

/-- Witness for C8 (amended): the ASCII text `"hi"` round-trips exactly. -/
theorem roundtrip_returns_utf8_decoded_write_witness :
    SSHChannel.read_channel
        (SSHChannel.write_channel .ascii [104, 105] (some ⟨[], false⟩)) =
      .ok ([104, 105], some ⟨[], false⟩) :=
  roundtrip_returns_utf8_decoded_write.2 [104, 105] (by decide)

/-- C10: the `log_writes` decorator appends the written text to the session
log exactly when a session log is configured and `fin or record_writes`
holds (a disjunction); with no session log, or with both flags false, no
append happens; in every case the wrapped transport write has already
completed, and a `UnicodeDecodeError` raised while logging is swallowed —
the call raises nothing, the write is done, and the session log is left
unchanged. -/
theorem log_writes_disjunction_and_decode_error (out : String)
    (s : ChannelLogState) (sl : SessionLog) :
    (s.session_log = some sl → (sl.fin || sl.record_writes) = true →
      log_writes false out s =
        ({ session_log := some { sl with entries := sl.entries ++ [out] },
            sent := s.sent ++ [out] }, none)) ∧
    (s.session_log = some sl → (sl.fin || sl.record_writes) = false →
      log_writes false out s = ({ s with sent := s.sent ++ [out] }, none)) ∧
    (s.session_log = none →
      log_writes false out s = ({ s with sent := s.sent ++ [out] }, none)) ∧
    (∀ decode_fails : Bool,
      (log_writes decode_fails out s).2 = none ∧
      (log_writes decode_fails out s).1.sent = s.sent ++ [out]) ∧
    (log_writes true out s).1.session_log = s.session_log := by
  refine ⟨?_, ?_, ?_, ?_, ?_⟩
  · intro hsl hflags
    simp [log_writes, logWritesTry, hsl, hflags]
  · intro hsl hflags
    simp [log_writes, logWritesTry, hsl, hflags]
  · intro hsl
    simp [log_writes, logWritesTry, hsl]
  · intro decode_fails
    cases decode_fails with
    | false =>
      cases hsl : s.session_log with
      | none => simp [log_writes, logWritesTry, hsl]
      | some sl' =>
        by_cases hflags : (sl'.fin || sl'.record_writes) = true
        · simp [log_writes, logWritesTry, hsl, hflags]
        · simp [log_writes, logWritesTry, hsl,
            Bool.eq_false_iff.mpr hflags]
    | true => simp [log_writes, logWritesTry]
  · simp [log_writes, logWritesTry]

/-- Witness for C10: with `fin = true` and `record_writes = false` the text
is still appended (the flags are a disjunction); with both flags false it is
not; and a decode error during logging is swallowed while the transport
write completes and the log is untouched. -/
theorem log_writes_disjunction_and_decode_error_witness :
    (log_writes false "cmd" ⟨some ⟨true, false, []⟩, []⟩ =
      (⟨some ⟨true, false, ["cmd"]⟩, ["cmd"]⟩, none)) ∧
    (log_writes false "cmd" ⟨some ⟨false, false, []⟩, []⟩ =
      (⟨some ⟨false, false, []⟩, ["cmd"]⟩, none)) ∧
    ((log_writes true "cmd" ⟨some ⟨true, true, []⟩, []⟩).2 = none ∧
      (log_writes true "cmd" ⟨some ⟨true, true, []⟩, []⟩).1.sent = ["cmd"]) ∧
    (log_writes true "cmd" ⟨some ⟨true, true, []⟩, []⟩).1.session_log =
      some ⟨true, true, []⟩ :=
  ⟨(log_writes_disjunction_and_decode_error "cmd" ⟨some ⟨true, false, []⟩, []⟩
      ⟨true, false, []⟩).1 rfl rfl,
    (log_writes_disjunction_and_decode_error "cmd" ⟨some ⟨false, false, []⟩, []⟩
      ⟨false, false, []⟩).2.1 rfl rfl,
    (log_writes_disjunction_and_decode_error "cmd" ⟨some ⟨true, true, []⟩, []⟩
      ⟨true, true, []⟩).2.2.2.1 true,
    (log_writes_disjunction_and_decode_error "cmd" ⟨some ⟨true, true, []⟩, []⟩
      ⟨true, true, []⟩).2.2.2.2⟩

end Netmiko
